import Mathlib

/-!
Verification of the HTTP interception and wire-reconstruction layer of the
tracer (source file `lumigo_tracer/sync_http/sync_hook.py`).

Byte buffers are embedded as lists of natural numbers (one entry per byte).
The Python string and bytes primitives used by the source (`in`, `split`
with a count of 1, `replace`, `strip`, `lower`, `decode`) are modelled
below with the same observable semantics on the inputs the source feeds
them.
-/

set_option maxRecDepth 8000

abbrev Bytes := List Nat

/-- Bytes of an ASCII string literal. -/
def ascii (s : String) : Bytes := s.data.map Char.toNat

/-- Source constant: the single-CRLF separator. -/
def _FLAGS_HEADER_SPLITTER : Bytes := [13, 10]

/-- Source constant: the double-CRLF header/body boundary. -/
def _BODY_HEADER_SPLITTER : Bytes := [13, 10, 13, 10]

/-- Source constant: bound on the prefix read from a stream. -/
def MAX_READ_SIZE : Nat := 1024

/-- Whether the first list occurs at the very start of the second list. -/
def leadsWith : Bytes → Bytes → Bool
  | [], _ => true
  | _ :: _, [] => false
  | a :: as, b :: bs => a == b && leadsWith as bs

/-- Index of the first occurrence of `pat` in the buffer (Python `find`). -/
def findSub (pat : Bytes) : Bytes → Option Nat
  | [] => if leadsWith pat [] then some 0 else none
  | c :: rest =>
    if leadsWith pat (c :: rest) then some 0
    else (findSub pat (rest : Bytes)).map (fun i => i + 1)

/-- Python `buf.split(pat, 1)` when `pat` occurs in `buf`: the part before
the first occurrence and the part after it.  `none` models the `pat in buf`
test failing. -/
def splitOnce (pat l : Bytes) : Option (Bytes × Bytes) :=
  match findSub pat l with
  | some i => some (l.take i, l.drop (i + pat.length))
  | none => none

/-- Python `buf.split(crlf)`: split on every CRLF occurrence, scanning from
the left. -/
def splitLines : Bytes → List Bytes
  | [] => [[]]
  | 13 :: 10 :: rest => [] :: splitLines rest
  | c :: rest =>
    match splitLines rest with
    | [] => [[c]]
    | l :: ls => (c :: l) :: ls

/-- Recursion kernel for `replaceAll`.  Every step consumes at least one
byte of the buffer, so a fuel equal to the buffer length is always enough
and the fuel-exhausted branch is unreachable. -/
def replaceAllFuel : Nat → Bytes → Bytes → Bytes → Bytes
  | 0, _, _, l => l
  | fuel + 1, pat, rep, l =>
    match l with
    | [] => []
    | c :: rest =>
      if pat.length > 0 && leadsWith pat (c :: rest) then
        rep ++ replaceAllFuel fuel pat rep (rest.drop (pat.length - 1))
      else
        c :: replaceAllFuel fuel pat rep rest

/-- Python `s.replace(pat, rep)`: replace every occurrence, scanning from
the left and resuming after each match. -/
def replaceAll (pat rep : Bytes) (l : Bytes) : Bytes :=
  replaceAllFuel l.length pat rep l

/-- ASCII whitespace recognised by Python `strip()`. -/
def isWsByte (b : Nat) : Bool :=
  b == 32 || b == 9 || b == 10 || b == 13 || b == 11 || b == 12

/-- Python `s.strip()`: drop leading and trailing whitespace. -/
def stripWs (l : Bytes) : Bytes :=
  ((l.dropWhile isWsByte).reverse.dropWhile isWsByte).reverse

/-- ASCII lower-casing of one byte. -/
def lowerByte (b : Nat) : Nat := if 65 ≤ b ∧ b ≤ 90 then b + 32 else b

/-- ASCII lower-casing of a buffer. -/
def lowerBytes (l : Bytes) : Bytes := l.map lowerByte

/-- One parsed header line: name before the first colon, value after it
with surrounding whitespace stripped.  Lines without a colon are dropped
by the header parser. -/
def parseHeaderLine (line : Bytes) : Option (Bytes × Bytes) :=
  match splitOnce [58] line with
  | some (n, v) => some (n, stripWs v)
  | none => none

/-- Models `http.client.parse_headers` on the header block as the spec
describes it: colon-separated lines with case-insensitive key semantics
(the stdlib parser itself is outside the repository). -/
def parseHeaderLines (l : Bytes) : List (Bytes × Bytes) :=
  (splitLines l).filterMap parseHeaderLine

/-- Case-insensitive lookup in the parsed header mapping, as performed by
`headers.get` on the stdlib message object. -/
def ciGet (m : List (Bytes × Bytes)) (k : Bytes) : Option Bytes :=
  match m.find? (fun p => lowerBytes p.1 == lowerBytes k) with
  | some p => some p.2
  | none => none

/-- In-memory rewindable stream (Python `io.BytesIO`). -/
structure ByteStream where
  contents : Bytes
  pos : Nat
deriving DecidableEq

/-- Python `stream.tell()`. -/
def streamTell (s : ByteStream) : Nat := s.pos

/-- Python `stream.read(n)`: the next `n` bytes (fewer at end of stream)
and the advanced stream. -/
def streamRead (n : Nat) (s : ByteStream) : Bytes × ByteStream :=
  ((s.contents.drop s.pos).take n,
    { contents := s.contents, pos := min (s.pos + n) s.contents.length })

/-- Python `stream.seek(p)`. -/
def streamSeek (p : Nat) (s : ByteStream) : ByteStream :=
  { contents := s.contents, pos := p }

/-- The stream phase of `_request_wrapper`: save the position with `tell`,
read at most `MAX_READ_SIZE` bytes, and `seek` back to the saved
position. -/
def readBoundedPrefix (s : ByteStream) : Bytes × ByteStream :=
  let cur := streamTell s
  let r := streamRead MAX_READ_SIZE s
  (r.1, streamSeek cur r.2)

/-- Value of the local variable `data` after the stream phase: either a
flat byte buffer or some other Python object that is not `bytes`. -/
inductive PyData where
  | bytes (bs : Bytes)
  | other
deriving DecidableEq

/-- The first positional argument of `HTTPConnection.send`. -/
inductive SendArg where
  | bytes (bs : Bytes)
  | stream (s : ByteStream)
  | other
deriving DecidableEq

/-- Value of the local variable `headers` at the end of the parse phase:
never reassigned, reassigned to the raw header-block bytes, or reassigned
to the parsed mapping. -/
inductive HeadersVal where
  | none
  | raw (bs : Bytes)
  | parsed (m : List (Bytes × Bytes))
deriving DecidableEq

/-- Python truthiness of the `headers` variable: `None` is falsy, raw
bytes are truthy when non-empty, and the stdlib message object reports
its number of headers as its length. -/
def headersTruthy : HeadersVal → Bool
  | .none => false
  | .raw bs => !bs.isEmpty
  | .parsed m => !m.isEmpty

/-- Modelled from the spec: the HttpRequestRecord handed to the trace
context (the `HttpRequest` data class lives outside `src/`); every field
may be absent. -/
structure HttpRequest where
  host : Option Bytes
  method : Option Bytes
  uri : Option Bytes
  headers : HeadersVal
  body : Option PyData
deriving DecidableEq

/-- Modelled from the spec: which trace-context entry point received the
record, `add_request_event` or `add_unparsed_request`. -/
inductive RecordedEvent where
  | request (r : HttpRequest)
  | unparsed (r : HttpRequest)
deriving DecidableEq

/-- Python `or` on optional strings: `None` and the empty string are
falsy. -/
def pyOr (a b : Option Bytes) : Option Bytes :=
  match a with
  | some l => if l.isEmpty then b else some l
  | none => b

/-- Bytes of the f-string rendering of an optional string; Python renders
`None` as the four-letter text. -/
def pyStrOpt : Option Bytes → Bytes
  | some l => l
  | none => ascii "None"

/-- The parse phase of `_request_wrapper` (the block guarded by
`lumigo_safe_execute` named "parse request"): returns the values of the
locals headers, body, uri and host once the block finishes or its
exception is swallowed.  The exception points are mirrored: decoding as
ASCII fails on a byte above 127 and `replace` fails when the method is
`None`; in both cases the assignments already made to headers and body
survive and uri stays `None`. -/
def parseRequest (host method : Option Bytes) (vsn : Bytes) (data : PyData) :
    HeadersVal × Option Bytes × Option Bytes × Option Bytes :=
  match data with
  | .other => (.none, none, none, host)
  | .bytes bs =>
    match splitOnce _BODY_HEADER_SPLITTER bs with
    | none => (.none, none, none, host)
    | some (hb, bodyBytes) =>
      match splitOnce _FLAGS_HEADER_SPLITTER hb with
      | none => (.raw hb, some bodyBytes, none, host)
      | some (requestInfo, hdrRest) =>
        let parsed := parseHeaderLines hdrRest
        if requestInfo.all (fun b => b < 128) then
          match method with
          | none => (.parsed parsed, some bodyBytes, none, host)
          | some m =>
            let path := stripWs (replaceAll vsn [] (replaceAll m [] requestInfo))
            let uri := pyStrOpt host ++ path
            (.parsed parsed, some bodyBytes, some uri,
              pyOr host (ciGet parsed (ascii "Host")))
        else (.parsed parsed, some bodyBytes, none, host)

/-- Shallow embedding of `_request_wrapper`, the wrapper installed around
the outbound send primitive.  `host` and `method` are the connection
attributes, `vsn` its HTTP version string, `f` the real send call.  The
result carries the recorded event, the state of the first argument at the
moment the real call runs, and the real call's return value.  Every
tracing step runs inside a `lumigo_safe_execute` block, so its failure
reduces to the fallback values and never skips the real call. -/
def _request_wrapper {Ret : Type} (host method : Option Bytes) (vsn : Bytes)
    (f : SendArg → Ret) (arg : SendArg) : RecordedEvent × SendArg × Ret :=
  let step1 : PyData × SendArg :=
    match arg with
    | .bytes bs => (.bytes bs, arg)
    | .stream s =>
      let r := readBoundedPrefix s
      (.bytes r.1, .stream r.2)
    | .other => (.other, arg)
  let data := step1.1
  let arg1 := step1.2
  let q := parseRequest host method vsn data
  let hdrs := q.1
  let body := q.2.1
  let uri := q.2.2.1
  let host2 := q.2.2.2
  let event :=
    if headersTruthy hdrs then
      RecordedEvent.request
        { host := host2, method := method, uri := uri, headers := hdrs,
          body := body.map PyData.bytes }
    else
      RecordedEvent.unparsed
        { host := host2, method := method, uri := uri, headers := .none,
          body := some data }
  (event, arg1, f arg1)

/-- The spec's example buffer: a GET request line, one Host header and an
empty body. -/
def exBuf : Bytes :=
  ascii "GET /foo?x=1 HTTP/1.1" ++ _FLAGS_HEADER_SPLITTER ++
    ascii "Host: example.com" ++ _BODY_HEADER_SPLITTER

/-- Process-wide installation state.  The flag is the source global
`already_wrapped`; `patchCount` counts how many times the four
interception points were patched (the four `wrap_function_wrapper` calls,
modelled as one atomic action that either completes or raises);
`loggedErrors` counts errors swallowed and logged by the surrounding
`lumigo_safe_execute` block, whose catch-and-log behaviour is modelled
from the spec. -/
structure InstallState where
  already_wrapped : Bool
  patchCount : Nat
  loggedErrors : Nat
deriving DecidableEq

/-- Shallow embedding of `wrap_http_calls`.  `patchFault` injects an
exception raised while patching the four entry points (`none` means the
patching completes).  The function is total: a patching failure is caught
and logged by `lumigo_safe_execute` and leaves the flag unset. -/
def wrap_http_calls {E : Type} (patchFault : Option E) (s : InstallState) :
    InstallState :=
  if s.already_wrapped then s
  else
    match patchFault with
    | none =>
      { already_wrapped := true, patchCount := s.patchCount + 1,
        loggedErrors := s.loggedErrors }
    | some _ =>
      { already_wrapped := s.already_wrapped, patchCount := s.patchCount,
        loggedErrors := s.loggedErrors + 1 }

/-- Modelled from the spec: the per-invocation TraceContext state held by
the external `SpansContainer` collaborator (`start()`, `end`,
`add_exception_event` contracts). -/
structure SpanState (Ret Exc : Type) where
  started : Bool
  exceptionEvents : List Exc
  ended : Bool
  endValue : Option Ret
deriving DecidableEq

/-- Modelled from the spec: a freshly created TraceContext. -/
def freshSpan (Ret Exc : Type) : SpanState Ret Exc :=
  { started := false, exceptionEvents := [], ended := false, endValue := none }

/-- Process-wide state seen by `lambda_wrapper`: the current TraceContext
(absent before any `create_span`), the installation state, and a count of
errors logged by the outer fail-open guard. -/
structure WrapperState (Ret Exc : Type) where
  span : Option (SpanState Ret Exc)
  install : InstallState
  loggedWrapperErrors : Nat
deriving DecidableEq

/-- Exceptions injected into the instrumentation steps that run before the
wrapped function: trace-context creation, span start, and the patching
performed inside `wrap_http_calls`.  (The external `SpansContainer` calls
may raise; the patch fault is swallowed inside `wrap_http_calls` itself.) -/
structure InitFaults (Exc : Type) where
  createSpan : Option Exc
  startSpan : Option Exc
  patch : Option Exc
deriving DecidableEq

/-- No injected instrumentation fault. -/
def noFaults (Exc : Type) : InitFaults Exc :=
  { createSpan := none, startSpan := none, patch := none }

/-- Source: the kill-switch test
`str(os.environ.get(_KILL_SWITCH, "")).lower() == "true"`.
`pyLower` models Python `str.lower` on ASCII text. -/
def pyLowerChar (c : Char) : Char :=
  if 65 ≤ c.toNat ∧ c.toNat ≤ 90 then Char.ofNat (c.toNat + 32) else c

/-- ASCII lower-casing of a Python string. -/
def pyLower (s : String) : String := String.mk (s.data.map pyLowerChar)

/-- The kill-switch comparison performed at the top of `lambda_wrapper`;
`env` is the value of the environment flag, `none` when unset. -/
def killSwitchOn (env : Option String) : Bool :=
  pyLower (env.getD "") == "true"

/-- Modelled from the spec: `SpansContainer.get_span().add_exception_event`. -/
def addExceptionEvent {Ret Exc : Type} (e : Exc) (s : WrapperState Ret Exc) :
    WrapperState Ret Exc :=
  { s with span := s.span.map (fun sp =>
      { sp with exceptionEvents := sp.exceptionEvents ++ [e] }) }

/-- Modelled from the spec: `SpansContainer.get_span().end(ret_val)`. -/
def endSpan {Ret Exc : Type} (v : Option Ret) (s : WrapperState Ret Exc) :
    WrapperState Ret Exc :=
  { s with span := s.span.map (fun sp =>
      { sp with ended := true, endValue := v }) }

/-- Shallow embedding of `lambda_wrapper`, the decorator body produced by
`_lumigo_tracer`.  The wrapped function `f` is applied to the original
arguments and returns `Except.error` when it raises.  The control flow
mirrors the source exactly: kill-switch test first; then the outer
`try` covering trace-context creation (`create_span` with force), span
start, and `wrap_http_calls`; then the inner `try` around the real call
with `add_exception_event` on failure and `end(ret_val)` in the `finally`;
the outer `except` re-raises when the function already executed and
otherwise logs and calls the function directly as a full bypass.  The
output-redirection print convenience is out of core scope and not
modelled. -/
def lambda_wrapper {Args Ret Exc : Type} (env : Option String)
    (faults : InitFaults Exc) (f : Args → Except Exc Ret) (args : Args)
    (s : WrapperState Ret Exc) : Except Exc Ret × WrapperState Ret Exc :=
  if killSwitchOn env then (f args, s)
  else
    match faults.createSpan with
    | some _ =>
      (f args, { s with loggedWrapperErrors := s.loggedWrapperErrors + 1 })
    | none =>
      let s1 := { s with span := some (freshSpan Ret Exc) }
      match faults.startSpan with
      | some _ =>
        (f args, { s1 with loggedWrapperErrors := s1.loggedWrapperErrors + 1 })
      | none =>
        let s2 := { s1 with span := some { freshSpan Ret Exc with started := true } }
        let s3 := { s2 with install := wrap_http_calls faults.patch s2.install }
        match f args with
        | Except.ok r => (Except.ok r, endSpan (some r) s3)
        | Except.error e => (Except.error e, endSpan none (addExceptionEvent e s3))

/-- Python exceptions raised by the header-injection wrapper when the
keyword arguments lack a usable header mapping. -/
inductive PyExc where
  | keyError
  | typeError
deriving DecidableEq

/-- Shape of the `headers` keyword argument of the intercepted
request-construction call: absent from `kwargs`, present but not a
mapping, or a mapping. -/
inductive HeadersArg where
  | absent
  | notMapping
  | mapping (m : List (Bytes × Bytes))
deriving DecidableEq

/-- Python dict item assignment: overwrite an existing key in place or
append a new one. -/
def setAssoc (k v : Bytes) : List (Bytes × Bytes) → List (Bytes × Bytes)
  | [] => [(k, v)]
  | (k0, v0) :: rest =>
    if k0 == k then (k, v) :: rest else (k0, v0) :: setAssoc k v rest

/-- The trace-propagation header name used by the source. -/
def X_AMZN_TRACE_ID : Bytes := ascii "X-Amzn-Trace-Id"

/-- Shallow embedding of `_putheader_wrapper`, the wrapper installed
around the request-construction entry point.  `root` is the value
returned by `get_patched_root` on the trace context and `f` the real
call, receiving the (possibly mutated) headers argument.  The source has
no exception guard here: subscripting a missing `headers` key raises
`KeyError` and item assignment on a non-mapping raises `TypeError`, both
propagating before the real call runs. -/
def _putheader_wrapper {Ret : Type} (root : Bytes)
    (f : HeadersArg → Except PyExc Ret) (headersArg : HeadersArg) :
    Except PyExc Ret :=
  match headersArg with
  | HeadersArg.absent => Except.error PyExc.keyError
  | HeadersArg.notMapping => Except.error PyExc.typeError
  | HeadersArg.mapping m =>
    f (HeadersArg.mapping (setAssoc X_AMZN_TRACE_ID root m))

/-- A handler value in the framework-adapter model: a plain function, the
result of applying the framework's own decorator (tagged with the
decorator identity), or a handler re-wrapped in a `LumigoChalice` adapter
carrying a configuration. -/
inductive Handler (Conf : Type) where
  | base (id : Nat)
  | framework (id : Nat) (h : Handler Conf)
  | lumigo (conf : Conf) (h : Handler Conf)
deriving DecidableEq

/-- Source constant `LumigoChalice.DECORATORS_OF_NEW_HANDLERS`: the fixed
allowlist of registration-method names. -/
def DECORATORS_OF_NEW_HANDLERS : List String :=
  ["on_s3_event", "on_sns_message", "on_sqs_message", "schedule",
    "lambda_function"]

/-- Shallow embedding of `LumigoChalice.__getattr__` restricted to
decorator-factory attributes.  `origAttr` gives the wrapped object's own
attribute: applied to the decorator arguments and a handler it returns the
framework decorator's result.  On the allowlist, and only when
`is_aws_environment()` holds, the adapter returns a wrapping function that
re-wraps the decorator's result in a new adapter carrying the same
configuration; every other access is forwarded unchanged. -/
def chalice_getattr {Conf DA : Type} (isAwsEnv : Bool) (conf : Conf)
    (origAttr : String → DA → Handler Conf → Handler Conf)
    (item : String) : DA → Handler Conf → Handler Conf :=
  if isAwsEnv && DECORATORS_OF_NEW_HANDLERS.contains item then
    fun dargs func => Handler.lumigo conf (origAttr item dargs func)
  else origAttr item

/-- Buffer whose request path contains the method name as a substring. -/
def exBuf10 : Bytes :=
  ascii "GET /GETters HTTP/1.1" ++ _FLAGS_HEADER_SPLITTER ++
    ascii "Host: example.com" ++ _BODY_HEADER_SPLITTER

/-- Concrete wrapper state used by the lifecycle witnesses. -/
def s0 : WrapperState Nat Nat :=
  { span := none,
    install := { already_wrapped := false, patchCount := 0, loggedErrors := 0 },
    loggedWrapperErrors := 0 }

/-- A fault injected at trace-context creation, for the C1 witness. -/
def faultsC1 : InitFaults Nat :=
  { createSpan := some 0, startSpan := none, patch := none }

/-- Concrete wrapped-object attribute table used for the adapter claim:
every attribute is the framework's own decorator factory, tagging its
result. -/
def exOrigAttr : String → Nat → Handler Nat → Handler Nat :=
  fun _ _ hd => Handler.framework 0 hd

theorem readBoundedPrefix_eq (s : ByteStream) :
    readBoundedPrefix s = ((s.contents.drop s.pos).take MAX_READ_SIZE, s) := by
  cases s
  rfl

/-- Claim C6: for every rewindable in-memory stream passed as the outbound
data, the interception saves the position, reads at most `MAX_READ_SIZE`
bytes, and restores the position, so on every exit path (the wrapper is a
total function covering parse success and failure alike) the stream handed
to the real transport call is identical to the input stream. -/
theorem C6_stream_position_restored {Ret : Type} (host method : Option Bytes)
    (vsn : Bytes) (f : SendArg → Ret) (s : ByteStream) :
    (readBoundedPrefix s).2 = s
    ∧ (readBoundedPrefix s).1.length ≤ MAX_READ_SIZE
    ∧ (_request_wrapper host method vsn f (SendArg.stream s)).2.1
        = SendArg.stream s := by
  refine ⟨by rw [readBoundedPrefix_eq], ?_, ?_⟩
  · rw [readBoundedPrefix_eq]
    simp [List.length_take]
  · simp [_request_wrapper, readBoundedPrefix_eq]

/-- Claim C5: a byte buffer without the double-CRLF boundary is recorded
as an unparsed request carrying the connection's host and method, the raw
input bytes as body, and no headers; and for every argument shape the real
send call receives the original, unmodified argument and its return value
is passed through. -/
theorem C5_unparsed_fallback_and_passthrough {Ret : Type}
    (host method : Option Bytes) (vsn : Bytes) (f : SendArg → Ret) (bs : Bytes)
    (hnb : splitOnce _BODY_HEADER_SPLITTER bs = none) :
    _request_wrapper host method vsn f (SendArg.bytes bs)
      = (RecordedEvent.unparsed
          { host := host, method := method, uri := none,
            headers := HeadersVal.none, body := some (PyData.bytes bs) },
          SendArg.bytes bs, f (SendArg.bytes bs))
    ∧ ∀ arg : SendArg,
        (_request_wrapper host method vsn f arg).2.1 = arg
        ∧ (_request_wrapper host method vsn f arg).2.2 = f arg := by
  constructor
  · simp [_request_wrapper, parseRequest, hnb, headersTruthy]
  · intro arg
    cases arg with
    | bytes b => exact ⟨rfl, rfl⟩
    | stream s =>
      constructor
      · simp [_request_wrapper, readBoundedPrefix_eq]
      · simp [_request_wrapper, readBoundedPrefix_eq]
    | other => exact ⟨rfl, rfl⟩

theorem C5_witness :
    splitOnce _BODY_HEADER_SPLITTER (ascii "partial body") = none
    ∧ _request_wrapper (some (ascii "example.com")) (some (ascii "GET"))
        (ascii "HTTP/1.1") (fun _ => (7 : Nat))
        (SendArg.bytes (ascii "partial body"))
      = (RecordedEvent.unparsed
          { host := some (ascii "example.com"), method := some (ascii "GET"),
            uri := none, headers := HeadersVal.none,
            body := some (PyData.bytes (ascii "partial body")) },
          SendArg.bytes (ascii "partial body"), 7) :=
  ⟨by decide,
    (C5_unparsed_fallback_and_passthrough (some (ascii "example.com"))
      (some (ascii "GET")) (ascii "HTTP/1.1") (fun _ => (7 : Nat))
      (ascii "partial body") (by decide)).1⟩

theorem wrap_http_calls_foldl_fixed {E : Type} (l : List (Option E))
    (s : InstallState) (h : s.already_wrapped = true) :
    l.foldl (fun st p => wrap_http_calls p st) s = s := by
  induction l generalizing s with
  | nil => rfl
  | cons p rest ih =>
    rw [List.foldl_cons]
    have h1 : wrap_http_calls p s = s := by simp [wrap_http_calls, h]
    rw [h1, ih s h]

/-- Claim C7: once the installation flag is set, every later call to
`wrap_http_calls` is a no-op; a patching failure is absorbed (the function
is total), logged, and leaves the flag unset and the patch count
unchanged so a later invocation may retry; and across any sequence of
invocations whose first installation succeeds, the patching side effect
occurs exactly once. -/
theorem C7_install_idempotent_and_failsafe {E : Type} :
    (∀ (p : Option E) (s : InstallState), s.already_wrapped = true →
        wrap_http_calls p s = s)
    ∧ (∀ (e : E) (s : InstallState), s.already_wrapped = false →
        (wrap_http_calls (some e) s).already_wrapped = false
        ∧ (wrap_http_calls (some e) s).patchCount = s.patchCount
        ∧ (wrap_http_calls (some e) s).loggedErrors = s.loggedErrors + 1)
    ∧ (∀ (rest : List (Option E)) (s : InstallState), s.already_wrapped = false →
        (rest.foldl (fun st p => wrap_http_calls p st)
            (wrap_http_calls (none : Option E) s)).already_wrapped = true
        ∧ (rest.foldl (fun st p => wrap_http_calls p st)
            (wrap_http_calls (none : Option E) s)).patchCount = s.patchCount + 1) := by
  refine ⟨?_, ?_, ?_⟩
  · intro p s h
    simp [wrap_http_calls, h]
  · intro e s h
    simp [wrap_http_calls, h]
  · intro rest s h
    have h1 : wrap_http_calls (none : Option E) s
        = { already_wrapped := true, patchCount := s.patchCount + 1,
            loggedErrors := s.loggedErrors } := by
      simp [wrap_http_calls, h]
    rw [h1, wrap_http_calls_foldl_fixed rest _ rfl]
    exact ⟨rfl, rfl⟩

theorem C7_witness :
    ({ already_wrapped := true, patchCount := 5, loggedErrors := 0 }
        : InstallState).already_wrapped = true
    ∧ wrap_http_calls (some (3 : Nat))
        { already_wrapped := true, patchCount := 5, loggedErrors := 0 }
      = { already_wrapped := true, patchCount := 5, loggedErrors := 0 }
    ∧ ({ already_wrapped := false, patchCount := 0, loggedErrors := 0 }
        : InstallState).already_wrapped = false
    ∧ ([some 3, none, some 4].foldl (fun st p => wrap_http_calls p st)
        (wrap_http_calls (none : Option Nat)
          { already_wrapped := false, patchCount := 0, loggedErrors := 0 })).patchCount
      = 0 + 1 :=
  ⟨rfl,
    C7_install_idempotent_and_failsafe.1 (some 3) _ rfl,
    rfl,
    (C7_install_idempotent_and_failsafe.2.2 [some 3, none, some 4] _ rfl).2⟩

/-- Claim C8 (code behaviour at the failing input): when the headers
keyword argument is absent, `_putheader_wrapper` raises KeyError before
the real call runs, so the injection is not skipped silently and the
original call never proceeds. -/
theorem C8_missing_headers_raises :
    _putheader_wrapper (ascii "Root=1-abc") (fun _ => Except.ok (0 : Nat))
        HeadersArg.absent = Except.error PyExc.keyError := rfl

theorem parseRequest_full (host : Option Bytes) (m vsn bs hb bb ri hr : Bytes)
    (h1 : splitOnce _BODY_HEADER_SPLITTER bs = some (hb, bb))
    (h2 : splitOnce _FLAGS_HEADER_SPLITTER hb = some (ri, hr))
    (hascii : ri.all (fun b => b < 128) = true) :
    parseRequest host (some m) vsn (PyData.bytes bs)
      = (HeadersVal.parsed (parseHeaderLines hr), some bb,
          some (pyStrOpt host ++ stripWs (replaceAll vsn [] (replaceAll m [] ri))),
          pyOr host (ciGet (parseHeaderLines hr) (ascii "Host"))) := by
  simp only [parseRequest, h1, h2, hascii]
  simp

theorem pyOr_of_ne_nil (h : Bytes) (b : Option Bytes) (hne : h ≠ []) :
    pyOr (some h) b = some h := by
  simp [pyOr, hne]

theorem request_wrapper_bytes {Ret : Type} (host method : Option Bytes)
    (vsn bs : Bytes) (f : SendArg → Ret) :
    _request_wrapper host method vsn f (SendArg.bytes bs)
      = (if headersTruthy (parseRequest host method vsn (PyData.bytes bs)).1 then
          RecordedEvent.request
            { host := (parseRequest host method vsn (PyData.bytes bs)).2.2.2,
              method := method,
              uri := (parseRequest host method vsn (PyData.bytes bs)).2.2.1,
              headers := (parseRequest host method vsn (PyData.bytes bs)).1,
              body := (parseRequest host method vsn (PyData.bytes bs)).2.1.map PyData.bytes }
        else
          RecordedEvent.unparsed
            { host := (parseRequest host method vsn (PyData.bytes bs)).2.2.2,
              method := method,
              uri := (parseRequest host method vsn (PyData.bytes bs)).2.2.1,
              headers := HeadersVal.none,
              body := some (PyData.bytes bs) },
        SendArg.bytes bs, f (SendArg.bytes bs)) := rfl

/-- Claim C4: a buffer containing the double-CRLF boundary and a
CRLF-terminated request line is parsed into a request record whose path is
the request line with the method token and the protocol-version token
removed and whitespace trimmed, whose URI is the known host concatenated
with that path, and whose headers come from the colon-separated header
block; when the host is unknown, the recorded host falls back to the
parsed mapping's Host entry. -/
theorem C4_parsed_request {Ret : Type} (m vsn h bs hb bb ri hr : Bytes)
    (f : SendArg → Ret)
    (h1 : splitOnce _BODY_HEADER_SPLITTER bs = some (hb, bb))
    (h2 : splitOnce _FLAGS_HEADER_SPLITTER hb = some (ri, hr))
    (hascii : ri.all (fun b => b < 128) = true)
    (hh : h ≠ [])
    (hhdr : (parseHeaderLines hr).isEmpty = false) :
    _request_wrapper (some h) (some m) vsn f (SendArg.bytes bs)
      = (RecordedEvent.request
          { host := some h, method := some m,
            uri := some (h ++ stripWs (replaceAll vsn [] (replaceAll m [] ri))),
            headers := HeadersVal.parsed (parseHeaderLines hr),
            body := some (PyData.bytes bb) },
          SendArg.bytes bs, f (SendArg.bytes bs))
    ∧ _request_wrapper none (some m) vsn f (SendArg.bytes bs)
      = (RecordedEvent.request
          { host := ciGet (parseHeaderLines hr) (ascii "Host"),
            method := some m,
            uri := some (ascii "None" ++ stripWs (replaceAll vsn [] (replaceAll m [] ri))),
            headers := HeadersVal.parsed (parseHeaderLines hr),
            body := some (PyData.bytes bb) },
          SendArg.bytes bs, f (SendArg.bytes bs)) := by
  constructor
  · rw [request_wrapper_bytes, parseRequest_full (some h) m vsn bs hb bb ri hr h1 h2 hascii]
    simp [headersTruthy, hhdr, pyOr_of_ne_nil h _ hh, pyStrOpt]
  · rw [request_wrapper_bytes, parseRequest_full none m vsn bs hb bb ri hr h1 h2 hascii]
    simp [headersTruthy, hhdr, pyOr, pyStrOpt]

theorem C4_witness :
    _request_wrapper (some (ascii "example.com")) (some (ascii "GET"))
        (ascii "HTTP/1.1") (fun _ => (1 : Nat)) (SendArg.bytes exBuf)
      = (RecordedEvent.request
          { host := some (ascii "example.com"), method := some (ascii "GET"),
            uri := some (ascii "example.com/foo?x=1"),
            headers := HeadersVal.parsed [(ascii "Host", ascii "example.com")],
            body := some (PyData.bytes []) },
          SendArg.bytes exBuf, 1) := by
  have h := (C4_parsed_request (ascii "GET") (ascii "HTTP/1.1")
    (ascii "example.com") exBuf
    (ascii "GET /foo?x=1 HTTP/1.1" ++ _FLAGS_HEADER_SPLITTER ++ ascii "Host: example.com")
    [] (ascii "GET /foo?x=1 HTTP/1.1") (ascii "Host: example.com")
    (fun _ => (1 : Nat)) (by decide) (by decide) (by decide) (by decide)
    (by decide)).1
  rw [h]
  decide


/-- Claim C10: the path derivation removes every occurrence of the method
token and the protocol-version token anywhere in the request line, so for
the request line asking for the path of the text "/GETters" with method
GET the recorded URI is the host concatenated with "/ters", while the
bytes handed to the real send call are the original buffer, unaffected. -/
theorem C10_method_substring_deleted {Ret : Type} (h : Bytes)
    (f : SendArg → Ret) (hne : h ≠ []) :
    _request_wrapper (some h) (some (ascii "GET")) (ascii "HTTP/1.1") f
        (SendArg.bytes exBuf10)
      = (RecordedEvent.request
          { host := some h, method := some (ascii "GET"),
            uri := some (h ++ ascii "/ters"),
            headers := HeadersVal.parsed [(ascii "Host", ascii "example.com")],
            body := some (PyData.bytes []) },
          SendArg.bytes exBuf10, f (SendArg.bytes exBuf10)) := by
  rw [request_wrapper_bytes,
    parseRequest_full (some h) (ascii "GET") (ascii "HTTP/1.1") exBuf10
      (ascii "GET /GETters HTTP/1.1" ++ _FLAGS_HEADER_SPLITTER ++ ascii "Host: example.com")
      [] (ascii "GET /GETters HTTP/1.1") (ascii "Host: example.com")
      (by decide) (by decide) (by decide)]
  have hpath : stripWs (replaceAll (ascii "HTTP/1.1") []
      (replaceAll (ascii "GET") [] (ascii "GET /GETters HTTP/1.1")))
      = ascii "/ters" := by decide
  have hhdr : parseHeaderLines (ascii "Host: example.com")
      = [(ascii "Host", ascii "example.com")] := by decide
  rw [hpath, hhdr]
  simp [headersTruthy, pyOr_of_ne_nil h _ hne, pyStrOpt]

theorem C10_witness :
    _request_wrapper (some (ascii "example.com")) (some (ascii "GET"))
        (ascii "HTTP/1.1") (fun _ => (2 : Nat)) (SendArg.bytes exBuf10)
      = (RecordedEvent.request
          { host := some (ascii "example.com"), method := some (ascii "GET"),
            uri := some (ascii "example.com/ters"),
            headers := HeadersVal.parsed [(ascii "Host", ascii "example.com")],
            body := some (PyData.bytes []) },
          SendArg.bytes exBuf10, 2) := by
  have h := C10_method_substring_deleted (ascii "example.com")
    (fun _ => (2 : Nat)) (by decide)
  rw [h]
  decide

theorem wrap_none_wrapped {E : Type} (t : InstallState) :
    (wrap_http_calls (none : Option E) t).already_wrapped = true := by
  by_cases hw : t.already_wrapped <;> simp [wrap_http_calls, hw]

/-- Claim C1: a tracing exception raised before the wrapped function has
started running — during trace-context creation, span start, or the
patching of the interception points — is caught and logged, and the
wrapper still runs the real function on the original arguments and
returns its outcome unchanged: tracing failures before RUN never prevent
the function from running. -/
theorem C1_prerun_failopen {Args Ret Exc : Type} (env : Option String)
    (faults : InitFaults Exc) (f : Args → Except Exc Ret) (args : Args)
    (s : WrapperState Ret Exc)
    (hks : killSwitchOn env = false)
    (hfault : faults.createSpan.isSome ∨ faults.startSpan.isSome
      ∨ (faults.patch.isSome ∧ s.install.already_wrapped = false)) :
    (lambda_wrapper env faults f args s).1 = f args
    ∧ (lambda_wrapper env faults f args s).2.loggedWrapperErrors
        + (lambda_wrapper env faults f args s).2.install.loggedErrors
      = s.loggedWrapperErrors + s.install.loggedErrors + 1 := by
  cases faults with
  | mk fc fs fp =>
    cases fc with
    | some e => refine ⟨?_, ?_⟩ <;> (simp [lambda_wrapper, hks]; try omega)
    | none =>
      cases fs with
      | some e => refine ⟨?_, ?_⟩ <;> (simp [lambda_wrapper, hks]; try omega)
      | none =>
        rcases hfault with hbad | hbad | hbad
        · simp at hbad
        · simp at hbad
        · obtain ⟨hp, hw⟩ := hbad
          cases fp with
          | none => simp at hp
          | some e =>
            cases hfa : f args with
            | ok r =>
              refine ⟨?_, ?_⟩ <;>
                (simp [lambda_wrapper, hks, hfa, wrap_http_calls, hw, endSpan,
                  addExceptionEvent]; try omega)
            | error e2 =>
              refine ⟨?_, ?_⟩ <;>
                (simp [lambda_wrapper, hks, hfa, wrap_http_calls, hw, endSpan,
                  addExceptionEvent]; try omega)



theorem C1_witness :
    killSwitchOn none = false
    ∧ (faultsC1.createSpan.isSome ∨ faultsC1.startSpan.isSome
      ∨ (faultsC1.patch.isSome ∧ s0.install.already_wrapped = false))
    ∧ ((lambda_wrapper none faultsC1 (fun n : Nat => Except.ok (n + 1)) 4 s0).1
        = (fun n : Nat => Except.ok (n + 1)) 4
      ∧ (lambda_wrapper none faultsC1 (fun n : Nat => Except.ok (n + 1)) 4 s0).2.loggedWrapperErrors
          + (lambda_wrapper none faultsC1 (fun n : Nat => Except.ok (n + 1)) 4 s0).2.install.loggedErrors
        = s0.loggedWrapperErrors + s0.install.loggedErrors + 1) :=
  ⟨by decide, by decide,
    C1_prerun_failopen none faultsC1 (fun n : Nat => Except.ok (n + 1)) 4 s0
      (by decide) (by decide)⟩

/-- Claim C2: when the wrapped function raises during RUN (kill switch
off, no pre-RUN fault), the wrapper records an exception event carrying
that exception on the trace context, marks the trace end with no return
value, and re-raises the very same exception value to the caller. -/
theorem C2_run_exception_recorded {Args Ret Exc : Type} (env : Option String)
    (faults : InitFaults Exc) (f : Args → Except Exc Ret) (args : Args)
    (s : WrapperState Ret Exc) (e : Exc)
    (hks : killSwitchOn env = false)
    (hc : faults.createSpan = none) (hst : faults.startSpan = none)
    (hf : f args = Except.error e) :
    (lambda_wrapper env faults f args s).1 = Except.error e
    ∧ (lambda_wrapper env faults f args s).2.span
      = some { started := true, exceptionEvents := [e], ended := true,
               endValue := none } := by
  cases faults with
  | mk fc fs fp =>
    cases fc with
    | some e0 => exact absurd hc (by simp)
    | none =>
      cases fs with
      | some e0 => exact absurd hst (by simp)
      | none =>
        refine ⟨?_, ?_⟩ <;>
          simp [lambda_wrapper, hks, hf, endSpan, addExceptionEvent, freshSpan]

theorem C2_witness :
    killSwitchOn none = false
    ∧ (noFaults Nat).createSpan = none
    ∧ (noFaults Nat).startSpan = none
    ∧ (fun _ : Nat => (Except.error 9 : Except Nat Nat)) 0 = Except.error 9
    ∧ ((lambda_wrapper none (noFaults Nat)
          (fun _ : Nat => (Except.error 9 : Except Nat Nat)) 0 s0).1
        = Except.error 9
      ∧ (lambda_wrapper none (noFaults Nat)
          (fun _ : Nat => (Except.error 9 : Except Nat Nat)) 0 s0).2.span
        = some { started := true, exceptionEvents := [9], ended := true,
                 endValue := none }) :=
  ⟨by decide, rfl, rfl, rfl,
    C2_run_exception_recorded none (noFaults Nat)
      (fun _ : Nat => (Except.error 9 : Except Nat Nat)) 0 s0 9
      (by decide) rfl rfl rfl⟩

/-- Claim C3: the kill-switch flag is compared case-insensitively against
the literal "true"; on a match the wrapper performs no installation and no
trace-context creation and returns exactly the direct call's outcome with
the process state untouched; on any other value, including unset,
instrumentation proceeds: the trace context is created and started and
the interception points end up installed. -/
theorem C3_kill_switch {Args Ret Exc : Type} (env : Option String)
    (f : Args → Except Exc Ret) (args : Args) (s : WrapperState Ret Exc) :
    (killSwitchOn env = true →
      ∀ faults : InitFaults Exc, lambda_wrapper env faults f args s = (f args, s))
    ∧ (killSwitchOn env = false →
      ((lambda_wrapper env (noFaults Exc) f args s).2.span.map
          (fun sp => sp.started) = some true
        ∧ (lambda_wrapper env (noFaults Exc) f args s).2.install.already_wrapped
          = true)) := by
  constructor
  · intro hks faults
    simp [lambda_wrapper, hks]
  · intro hks
    cases hfa : f args with
    | ok r =>
      refine ⟨?_, ?_⟩ <;>
        simp [lambda_wrapper, hks, hfa, noFaults, endSpan, addExceptionEvent,
          freshSpan, wrap_none_wrapped]
    | error e =>
      refine ⟨?_, ?_⟩ <;>
        simp [lambda_wrapper, hks, hfa, noFaults, endSpan, addExceptionEvent,
          freshSpan, wrap_none_wrapped]

theorem C3_witness :
    killSwitchOn (some "TRUE") = true
    ∧ lambda_wrapper (some "TRUE") (noFaults Nat)
        (fun n : Nat => Except.ok (n + 1)) 4 s0
      = ((fun n : Nat => Except.ok (n + 1)) 4, s0)
    ∧ killSwitchOn (some "true") = true
    ∧ lambda_wrapper (some "true") (noFaults Nat)
        (fun n : Nat => Except.ok (n + 1)) 4 s0
      = ((fun n : Nat => Except.ok (n + 1)) 4, s0)
    ∧ killSwitchOn (some "True") = true
    ∧ lambda_wrapper (some "True") (noFaults Nat)
        (fun n : Nat => Except.ok (n + 1)) 4 s0
      = ((fun n : Nat => Except.ok (n + 1)) 4, s0)
    ∧ killSwitchOn (some "False") = false
    ∧ killSwitchOn none = false
    ∧ ((lambda_wrapper none (noFaults Nat)
          (fun n : Nat => Except.ok (n + 1)) 4 s0).2.span.map
          (fun sp => sp.started) = some true
      ∧ (lambda_wrapper none (noFaults Nat)
          (fun n : Nat => Except.ok (n + 1)) 4 s0).2.install.already_wrapped
        = true) :=
  ⟨by decide,
    (C3_kill_switch (some "TRUE") (fun n : Nat => Except.ok (n + 1)) 4 s0).1
      (by decide) (noFaults Nat),
    by decide,
    (C3_kill_switch (some "true") (fun n : Nat => Except.ok (n + 1)) 4 s0).1
      (by decide) (noFaults Nat),
    by decide,
    (C3_kill_switch (some "True") (fun n : Nat => Except.ok (n + 1)) 4 s0).1
      (by decide) (noFaults Nat),
    by decide,
    by decide,
    (C3_kill_switch none (fun n : Nat => Except.ok (n + 1)) 4 s0).2 (by decide)⟩


/-- Claim C9 (counterexample): outside the AWS environment the adapter
forwards even an allowlisted name unchanged, so the accessed attribute is
the original decorator factory and its application is not re-wrapped in a
new adapter; the claim as stated, unconditional on the environment, is
false. -/
theorem C9_counterexample :
    chalice_getattr false (0 : Nat) exOrigAttr "schedule" 0 (Handler.base 1)
      ≠ Handler.lumigo 0 (exOrigAttr "schedule" 0 (Handler.base 1)) := by
  decide

/-- Claim C9 (amended): in the AWS environment, attribute access for a
name on the allowlist returns the wrapping function that re-wraps the
framework decorator's result in a new adapter carrying the same
configuration; access for any name not on the allowlist — and any access
outside the AWS environment — is forwarded unchanged to the wrapped
object. -/
theorem C9_allowlist_rewrap {Conf DA : Type} (conf : Conf)
    (origAttr : String → DA → Handler Conf → Handler Conf) (item : String) :
    (DECORATORS_OF_NEW_HANDLERS.contains item = true →
      ∀ (dargs : DA) (hd : Handler Conf),
        chalice_getattr true conf origAttr item dargs hd
          = Handler.lumigo conf (origAttr item dargs hd))
    ∧ (DECORATORS_OF_NEW_HANDLERS.contains item = false →
      ∀ b : Bool, chalice_getattr b conf origAttr item = origAttr item)
    ∧ chalice_getattr false conf origAttr item = origAttr item := by
  refine ⟨?_, ?_, ?_⟩
  · intro hmem dargs hd
    have hm : item ∈ DECORATORS_OF_NEW_HANDLERS := by simpa using hmem
    simp [chalice_getattr, hm]
  · intro hmem b
    have hm : item ∉ DECORATORS_OF_NEW_HANDLERS := by simpa using hmem
    simp [chalice_getattr, hm]
  · simp [chalice_getattr]

theorem C9_witness :
    DECORATORS_OF_NEW_HANDLERS.contains "schedule" = true
    ∧ chalice_getattr true (0 : Nat) exOrigAttr "schedule" 0 (Handler.base 1)
      = Handler.lumigo 0 (exOrigAttr "schedule" 0 (Handler.base 1)) :=
  ⟨by decide,
    (C9_allowlist_rewrap (0 : Nat) exOrigAttr "schedule").1 (by decide) 0
      (Handler.base 1)⟩
